import Mathlib

/-!
Verification of the GIF/sprite-sheet composer ("序列合成器").

Shallow embedding of the core state and algorithms of the application:
* the data model (`FrameData`, `SpriteSheetConfig`, `AppMode`) from `types.ts`;
* the configuration handlers and playback state transitions from `App.tsx`
  (`handleGridChange`, the animation-loop effect, the reset effect, the
  timeline scrubber and the skip-forward button);
* the interactive renderer from `CanvasPlayer.tsx` (base-dimension
  computation and the draw effect, modelled as a list of canvas operations);
* the export pipeline `generateGif` from `utils/imageUtils.ts`, modelled as
  a pure function from inputs plus a decode oracle and an encoder outcome to
  the produced encoder calls, together with a count of how many times the
  transient worker object URL is revoked.

JavaScript `Math.floor(a / b)` on non-negative numbers is Nat division;
fractional pixel offsets (`(width - w) / 2`) and timer delays (`1000 / fps`)
are modelled exactly in `ℚ`.
-/

namespace GifHecheng

/-- `AppMode` from `types.ts`. -/
inductive AppMode where
  | MULTI_IMAGE
  | SPRITE_SHEET
deriving DecidableEq, Repr

/-- `FrameData` from `types.ts` (the `file : File` handle carries no
information relevant to the verified core and is omitted). -/
structure FrameData where
  id : String
  url : String
  width : Nat
  height : Nat
deriving DecidableEq, Repr

/-- A decoded image (`HTMLImageElement`), as produced by `loadImageElement`:
only its natural dimensions are observable by the core. -/
structure Img where
  naturalWidth : Nat
  naturalHeight : Nat
deriving DecidableEq, Repr

/-- `SpriteSheetConfig` from `types.ts`. -/
structure SpriteSheetConfig where
  rows : Nat
  cols : Nat
  totalFrames : Nat
  originalImage : Option FrameData
deriving DecidableEq, Repr

/-- The initial `spriteConfig` state in `App.tsx`. -/
def initialSpriteConfig : SpriteSheetConfig :=
  { rows := 1, cols := 1, totalFrames := 1, originalImage := none }

/-- Which grid dimension `handleGridChange` is editing (`'rows' | 'cols'`). -/
inductive GridKey where
  | rows
  | cols
deriving DecidableEq, Repr

/-- `handleGridChange` from `App.tsx`: clamp the entered value to at least 1
(`Math.max(1, value)`; the entered value is an arbitrary integer, hence
`Int`), update the edited dimension, and set `totalFrames` to
`newVal * (key === 'rows' ? prev.cols : prev.rows)`. -/
def handleGridChange (key : GridKey) (value : Int) (prev : SpriteSheetConfig) :
    SpriteSheetConfig :=
  let newVal : Nat := (max 1 value).toNat
  match key with
  | GridKey.rows => { prev with rows := newVal, totalFrames := newVal * prev.cols }
  | GridKey.cols => { prev with cols := newVal, totalFrames := newVal * prev.rows }

/-- `totalPlayableFrames` from `App.tsx`: frame-list length in multi-image
mode, `spriteConfig.totalFrames` in sprite-sheet mode. -/
def totalPlayableFrames (mode : AppMode) (frames : List FrameData)
    (spriteConfig : SpriteSheetConfig) : Nat :=
  match mode with
  | AppMode.MULTI_IMAGE => frames.length
  | AppMode.SPRITE_SHEET => spriteConfig.totalFrames

/-- One tick of the animation loop in `App.tsx`:
`setCurrentFrameIndex((prev) => (prev + 1) % totalPlayableFrames)`. -/
def advanceFrameIndex (totalPlayable prev : Nat) : Nat :=
  (prev + 1) % totalPlayable

/-- A canvas-context operation, the common observable vocabulary of the
interactive renderer (`CanvasPlayer.tsx`) and the exporter
(`generateGif`). Coordinates of `drawImageAt` are rationals because
JavaScript centring offsets may be fractional; images are identified by the
source URL they were decoded from. -/
inductive CanvasOp where
  | clearRect (x y w h : Nat)
  | fillRect (color : String) (x y w h : Nat)
  | drawImageAt (url : String) (x y : ℚ)
  | drawImageRect (url : String) (sx sy sw sh dx dy dw dh : Nat)
deriving DecidableEq, Repr

/-- Base canvas dimensions and the `hasContent` flag computed in
`CanvasPlayer.tsx`: multi-image mode uses the dimensions of
`frames[currentFrameIndex % frames.length]`; sprite mode with a loaded
atlas uses `floor(width / cols) × floor(height / rows)`; otherwise the
fallback 300×300 is used with `hasContent = false`. -/
def canvasPlayerBaseDims (mode : AppMode) (frames : List FrameData)
    (spriteConfig : SpriteSheetConfig) (currentFrameIndex : Nat) :
    Nat × Nat × Bool :=
  match mode with
  | AppMode.MULTI_IMAGE =>
    match frames.get? (currentFrameIndex % frames.length) with
    | some frame => (frame.width, frame.height, true)
    | none => (300, 300, false)
  | AppMode.SPRITE_SHEET =>
    match spriteConfig.originalImage with
    | some oi => (oi.width / spriteConfig.cols, oi.height / spriteConfig.rows, true)
    | none => (300, 300, false)

/-- The draw effect of `CanvasPlayer.tsx` as the list of canvas operations it
performs: always a `clearRect` over the base dimensions, then, if content is
available, the frame draw. In sprite mode the draw happens only when both
`spriteConfig.originalImage` and the decoded `imageObj` are present, with
source rectangle `((i mod cols)·frameW, floor(i / cols)·frameH, frameW,
frameH)` where `frameW = floor(width / cols)`, `frameH = floor(height /
rows)`. -/
def canvasPlayerDraw (mode : AppMode) (frames : List FrameData)
    (spriteConfig : SpriteSheetConfig) (currentFrameIndex : Nat)
    (imageObj : Option Img) : List CanvasOp :=
  let dims := canvasPlayerBaseDims mode frames spriteConfig currentFrameIndex
  let cleared : List CanvasOp := [CanvasOp.clearRect 0 0 dims.1 dims.2.1]
  match mode with
  | AppMode.MULTI_IMAGE =>
    match frames.get? (currentFrameIndex % frames.length) with
    | some frame => cleared ++ [CanvasOp.drawImageAt frame.url 0 0]
    | none => cleared
  | AppMode.SPRITE_SHEET =>
    match spriteConfig.originalImage, imageObj with
    | some oi, some _ =>
      let frameW := oi.width / spriteConfig.cols
      let frameH := oi.height / spriteConfig.rows
      let sx := (currentFrameIndex % spriteConfig.cols) * frameW
      let sy := (currentFrameIndex / spriteConfig.cols) * frameH
      cleared ++ [CanvasOp.drawImageRect oi.url sx sy frameW frameH 0 0 frameW frameH]
    | _, _ => cleared

/-- One composited frame handed to the encoder: the canvas operations that
produced it and the `delay` option passed to `gif.addFrame`. -/
structure FrameOut where
  steps : List CanvasOp
  delay : ℚ
deriving DecidableEq, Repr

/-- The data accumulated by a successful export: canvas size and the ordered
`addFrame` calls. -/
structure GifResult where
  width : Nat
  height : Nat
  frames : List FrameOut
deriving DecidableEq, Repr

/-- Outcome of one `generateGif` run: the promise resolves with a blob
(`success`), the function throws before reaching the encoder (`thrown`), or
the encoder never fires `finished` so the promise never settles
(`pending`). -/
inductive GifOutcome where
  | success (r : GifResult)
  | thrown (msg : String)
  | pending
deriving DecidableEq, Repr

/-- The sequential `await loadImageElement(frame.url)` loop of
`generateGif` in multi-image mode: decode each frame's URL in order,
failing the whole run on the first decode failure. `dec` is the decode
oracle (`none` = the image's `onerror` fired). -/
def loadAll (dec : String → Option Img) : List FrameData → Option (List (String × Img))
  | [] => some []
  | f :: fs =>
    match dec f.url, loadAll dec fs with
    | some im, some restImgs => some ((f.url, im) :: restImgs)
    | _, _ => none

/-- Step 2 of `generateGif`: the `images` array after the decode phase.
Sprite mode decodes only `spriteConfig.originalImage`; when it is `null`
the array stays empty. -/
def loadImages (mode : AppMode) (frames : List FrameData)
    (spriteConfig : SpriteSheetConfig) (dec : String → Option Img) :
    Option (List (String × Img)) :=
  match mode with
  | AppMode.MULTI_IMAGE => loadAll dec frames
  | AppMode.SPRITE_SHEET =>
    match spriteConfig.originalImage with
    | some oi =>
      match dec oi.url with
      | some im => some [(oi.url, im)]
      | none => none
    | none => some []

/-- Step 3 of `generateGif`: export canvas dimensions. Multi-image mode uses
the first decoded image's natural dimensions; sprite mode uses
`floor(originalImage.width / cols) × floor(originalImage.height / rows)`
(with the source's `width = 0, height = 0` defaults when no branch
applies). -/
def exportCanvasSize (mode : AppMode) (spriteConfig : SpriteSheetConfig)
    (img0 : String × Img) : Nat × Nat :=
  match mode, spriteConfig.originalImage with
  | AppMode.MULTI_IMAGE, _ => (img0.2.naturalWidth, img0.2.naturalHeight)
  | AppMode.SPRITE_SHEET, some oi =>
    (oi.width / spriteConfig.cols, oi.height / spriteConfig.rows)
  | AppMode.SPRITE_SHEET, none => (0, 0)

/-- Step 5 of `generateGif`, one loop iteration: fill the canvas with the
background color, draw frame `i` (multi-image: `images[i]` centred at
`((width - w) / 2, (height - h) / 2)`; sprite: source cell
`((i mod cols)·frameW, floor(i / cols)·frameH)` drawn at the origin), then
`gif.addFrame(ctx, { copy: true, delay: 1000 / fps })`. -/
def gifFrame (mode : AppMode) (spriteConfig : SpriteSheetConfig) (bg : String)
    (fps : Nat) (images : List (String × Img)) (img0 : String × Img)
    (width height : Nat) (i : Nat) : FrameOut :=
  let fill := CanvasOp.fillRect bg 0 0 width height
  let steps :=
    match mode with
    | AppMode.MULTI_IMAGE =>
      let p := images.getD i img0
      [fill, CanvasOp.drawImageAt p.1
        (((width : ℚ) - (p.2.naturalWidth : ℚ)) / 2)
        (((height : ℚ) - (p.2.naturalHeight : ℚ)) / 2)]
    | AppMode.SPRITE_SHEET =>
      let sx := (i % spriteConfig.cols) * width
      let sy := (i / spriteConfig.cols) * height
      [fill, CanvasOp.drawImageRect img0.1 sx sy width height 0 0 width height]
  { steps := steps, delay := (1000 : ℚ) / (fps : ℚ) }

/-- `totalFramesToRender` from `generateGif`: number of loop iterations —
the decoded image count in multi-image mode, `spriteConfig.totalFrames` in
sprite mode. -/
def totalFramesToRender (mode : AppMode) (images : List (String × Img))
    (spriteConfig : SpriteSheetConfig) : Nat :=
  match mode with
  | AppMode.MULTI_IMAGE => images.length
  | AppMode.SPRITE_SHEET => spriteConfig.totalFrames

/-- `generateGif` from `utils/imageUtils.ts`. Returns the run outcome
together with the number of `URL.revokeObjectURL(workerUrl)` calls
performed on that control path. The worker object URL is created
unconditionally at the start of the run; in the source the only
`revokeObjectURL` for it sits inside the encoder's `finished` handler, so
the count is 1 exactly on the success path: a decode failure, the
`"No images to process"` guard, and an encoder that never finishes all
leave the URL unreleased. `encoderOk` models whether the black-box encoder
reaches `finished`. -/
def generateGif (mode : AppMode) (frames : List FrameData)
    (spriteConfig : SpriteSheetConfig) (fps : Nat) (bg : String)
    (dec : String → Option Img) (encoderOk : Bool) : GifOutcome × Nat :=
  match loadImages mode frames spriteConfig dec with
  | none => (GifOutcome.thrown "decode failure", 0)
  | some [] => (GifOutcome.thrown "No images to process", 0)
  | some (img0 :: restImgs) =>
    let wh := exportCanvasSize mode spriteConfig img0
    let outFrames := (List.range (totalFramesToRender mode (img0 :: restImgs) spriteConfig)).map
      (gifFrame mode spriteConfig bg fps (img0 :: restImgs) img0 wh.1 wh.2)
    if encoderOk then
      (GifOutcome.success { width := wh.1, height := wh.2, frames := outFrames }, 1)
    else
      (GifOutcome.pending, 0)

/-- The `addFrame` calls of a run (empty unless the run succeeded). -/
def exportFrameOuts : GifOutcome → List FrameOut
  | GifOutcome.success r => r.frames
  | _ => []

/-- The export canvas size of a successful run. -/
def exportSize : GifOutcome → Option (Nat × Nat)
  | GifOutcome.success r => some (r.width, r.height)
  | _ => none

/-- The slice of `App.tsx` state that the reset effect and the manual index
controls touch. -/
structure AppState where
  mode : AppMode
  frames : List FrameData
  spriteConfig : SpriteSheetConfig
  isPlaying : Bool
  currentFrameIndex : Nat
deriving DecidableEq, Repr

/-- The dependency array `[mode, frames.length, spriteConfig.originalImage]`
of the reset effect in `App.tsx`. -/
def depsOf (s : AppState) : AppMode × Nat × Option FrameData :=
  (s.mode, s.frames.length, s.spriteConfig.originalImage)

/-- The body of the reset effect:
`setCurrentFrameIndex(0); setIsPlaying(false)`. -/
def applyResetEffect (s : AppState) : AppState :=
  { s with currentFrameIndex := 0, isPlaying := false }

/-- Commit a state update: React re-runs the reset effect exactly when its
dependency array changed relative to the previous render. -/
def commitState (old new : AppState) : AppState :=
  if depsOf new = depsOf old then new else applyResetEffect new

/-- `setMode` followed by the render/effect cycle. -/
def setModeOp (m : AppMode) (s : AppState) : AppState :=
  commitState s { s with mode := m }

/-- `setFrames` followed by the render/effect cycle. -/
def setFramesOp (fs : List FrameData) (s : AppState) : AppState :=
  commitState s { s with frames := fs }

/-- Replacing `spriteConfig.originalImage` followed by the render/effect
cycle. -/
def setAtlasImageOp (img : Option FrameData) (s : AppState) : AppState :=
  commitState s { s with spriteConfig := { s.spriteConfig with originalImage := img } }

/-- The timeline scrubber's `onChange` in `App.tsx`:
`setIsPlaying(false); setCurrentFrameIndex(parseInt(e.target.value))`. -/
def timelineScrub (v : Nat) (s : AppState) : AppState :=
  { s with isPlaying := false, currentFrameIndex := v }

/-- The skip-forward button's `onClick` in `App.tsx`:
`setCurrentFrameIndex((prev) => (prev + 1) % totalPlayableFrames)` —
and nothing else. -/
def skipForwardClick (s : AppState) : AppState :=
  { s with currentFrameIndex :=
      (s.currentFrameIndex + 1) %
        totalPlayableFrames s.mode s.frames s.spriteConfig }

/-- One scheduled `setInterval` timer: its id and the interval argument
(`1000 / fps`, exact in `ℚ`). -/
structure TimerEntry where
  id : Nat
  intervalMs : ℚ
deriving DecidableEq, Repr

/-- The state relevant to the animation-loop effect of `App.tsx`: the React
state it reads (`isPlaying`, `fps`, `totalPlayable`, `currentFrameIndex`),
the `timerRef` holding the last created interval id (never nulled by the
source), the set of intervals currently alive in the host environment, and
a fresh-id counter. -/
structure LoopState where
  isPlaying : Bool
  fps : Nat
  totalPlayable : Nat
  currentFrameIndex : Nat
  timerRef : Option Nat
  liveTimers : List TimerEntry
  nextTimerId : Nat
deriving DecidableEq, Repr

/-- `clearInterval(id)`: removes the interval with that id; clearing an id
that is no longer alive is a no-op (as in the browser). -/
def clearIntervalOp (t : Nat) (l : List TimerEntry) : List TimerEntry :=
  l.filter (fun e => e.id != t)

/-- The effect cleanup in `App.tsx`:
`if (timerRef.current) clearInterval(timerRef.current)`. The ref itself is
not nulled. -/
def effectCleanup (s : LoopState) : LoopState :=
  match s.timerRef with
  | some t => { s with liveTimers := clearIntervalOp t s.liveTimers }
  | none => s

/-- The effect body in `App.tsx`: when `isPlaying && totalPlayableFrames > 0`,
schedule `setInterval(..., 1000 / fps)` and store its id in `timerRef`. -/
def effectBody (s : LoopState) : LoopState :=
  if s.isPlaying = true ∧ 0 < s.totalPlayable then
    { s with timerRef := some s.nextTimerId,
             liveTimers := { id := s.nextTimerId,
                             intervalMs := (1000 : ℚ) / (s.fps : ℚ) } :: s.liveTimers,
             nextTimerId := s.nextTimerId + 1 }
  else s

/-- One re-run of the animation-loop effect: React runs the previous
render's cleanup, then the new body. -/
def effectRun (s : LoopState) : LoopState := effectBody (effectCleanup s)

/-- The events that touch the animation loop: the play/pause button, moving
the FPS slider, a change of `totalPlayableFrames` (data edit / mode
switch), and the firing of a live interval. The first four change a
dependency of the effect, so the effect re-runs; a tick only calls
`setCurrentFrameIndex`, which is not a dependency. -/
inductive ClockEvent where
  | play
  | pause
  | setFps (f : Nat)
  | setTotal (n : Nat)
  | tick (id : Nat)
deriving DecidableEq, Repr

/-- Transition of the animation-loop state on one event. -/
def stepEvent : ClockEvent → LoopState → LoopState
  | ClockEvent.play, s => effectRun { s with isPlaying := true }
  | ClockEvent.pause, s => effectRun { s with isPlaying := false }
  | ClockEvent.setFps f, s => effectRun { s with fps := f }
  | ClockEvent.setTotal n, s => effectRun { s with totalPlayable := n }
  | ClockEvent.tick id, s =>
    if s.liveTimers.any (fun e => e.id = id) then
      { s with currentFrameIndex := (s.currentFrameIndex + 1) % s.totalPlayable }
    else s

/-- Invariant of the animation-loop state: at most one interval is alive,
and any live interval is the one `timerRef` points at. -/
def LoopInv (s : LoopState) : Prop :=
  s.liveTimers.length ≤ 1 ∧ ∀ e ∈ s.liveTimers, s.timerRef = some e.id

instance (s : LoopState) : Decidable (LoopInv s) := by
  unfold LoopInv; infer_instance

/-- One configuration edit of `spriteConfig`, as the UI allows it: uploading
an atlas resets the config to `rows = 1, cols = 1, totalFrames = 1` with
the new image (`handleFilesDropped`, sprite branch); `handleGridChange`
edits a grid dimension; the 有效帧数 range input sets `totalFrames` to a
value the element constrains to `min = 1`, `max = rows * cols`. -/
inductive ConfigStep : SpriteSheetConfig → SpriteSheetConfig → Prop
  | upload (img : FrameData) (c : SpriteSheetConfig) :
      ConfigStep c { rows := 1, cols := 1, totalFrames := 1, originalImage := some img }
  | grid (key : GridKey) (value : Int) (c : SpriteSheetConfig) :
      ConfigStep c (handleGridChange key value c)
  | slider (v : Nat) (c : SpriteSheetConfig) (h1 : 1 ≤ v) (h2 : v ≤ c.rows * c.cols) :
      ConfigStep c { c with totalFrames := v }

/-- The sprite configurations reachable from the initial state through the
UI's configuration edits. -/
inductive ReachableConfig : SpriteSheetConfig → Prop
  | init : ReachableConfig initialSpriteConfig
  | step {c c' : SpriteSheetConfig} :
      ReachableConfig c → ConfigStep c c' → ReachableConfig c'

/-- A concrete application state: playing at frame 3 of a one-image list in
multi-image mode, with the initial sprite configuration. -/
def witnessAppState : AppState :=
  { mode := AppMode.MULTI_IMAGE,
    frames := [{ id := "f1", url := "u1", width := 4, height := 4 }],
    spriteConfig := initialSpriteConfig,
    isPlaying := true, currentFrameIndex := 3 }

/-- A concrete animation-loop state: playing at 8 fps over 4 playable
frames, currently at index 2, with the single interval `0` alive. -/
def witnessLoopState : LoopState :=
  { isPlaying := true, fps := 8, totalPlayable := 4, currentFrameIndex := 2,
    timerRef := some 0,
    liveTimers := [{ id := 0, intervalMs := 125 }], nextTimerId := 1 }

/-- A concrete sprite configuration: a 64×48 atlas cut into a 2×2 grid
with all 4 cells playable. -/
def witnessAtlasConfig : SpriteSheetConfig :=
  { rows := 2, cols := 2, totalFrames := 4,
    originalImage := some { id := "s", url := "us", width := 64, height := 48 } }

/-- Three frames of differing sizes (100×80, 40×30, 60×50), as an ordered
sequence. -/
def seqFrames : List FrameData :=
  [{ id := "f0", url := "u0", width := 100, height := 80 },
   { id := "f1", url := "u1", width := 40, height := 30 },
   { id := "f2", url := "u2", width := 60, height := 50 }]

/-- A decode oracle resolving the three sequence URLs to their images. -/
def seqDecode : String → Img := fun u =>
  if u = "u1" then { naturalWidth := 40, naturalHeight := 30 }
  else if u = "u2" then { naturalWidth := 60, naturalHeight := 50 }
  else { naturalWidth := 100, naturalHeight := 80 }

/-! ## Helper lemmas -/

/-- Iterating the animation tick `k` times from an in-range index lands on
`(i + k) mod n`. -/
theorem advanceFrameIndex_iterate (n k i : Nat) (hi : i < n) :
    (advanceFrameIndex n)^[k] i = (i + k) % n := by
  induction k with
  | zero => simp [Nat.mod_eq_of_lt hi]
  | succ k ih =>
    rw [Function.iterate_succ_apply', ih]
    unfold advanceFrameIndex
    rw [Nat.mod_add_mod, Nat.add_assoc]

/-! ## C1 -/

/-- C1 (counterexample): the claim says a rows change re-clamps
`totalFrames` to `min (old totalFrames) (newRows * cols)`, so changing rows
from 2 to 3 with `cols = 2`, `totalFrames = 4` should keep 4; the code
instead resets `totalFrames` to `3 * 2 = 6`. -/
theorem handleGridChange_keeps_total_counterexample :
    (handleGridChange GridKey.rows 3
        { rows := 2, cols := 2, totalFrames := 4, originalImage := none }).totalFrames = 6 ∧
      (6 : Nat) ≠ min 4 (3 * 2) := by
  decide

/-- C1 (amended): whenever rows or cols is edited, `handleGridChange`
resets `totalFrames` to exactly `newRows * newCols` (the grid maximum),
regardless of the prior `totalFrames`; in particular the prior value is not
kept even when it is below the new maximum. The rows 2→1, cols = 2 scenario
still ends at 2, because the maximum itself is 2. -/
theorem handleGridChange_resets_total_to_max (key : GridKey) (value : Int)
    (prev : SpriteSheetConfig) :
    (handleGridChange key value prev).totalFrames =
      (handleGridChange key value prev).rows * (handleGridChange key value prev).cols ∧
    (handleGridChange GridKey.rows 1
        { rows := 2, cols := 2, totalFrames := 4, originalImage := none }).totalFrames = 2 := by
  refine ⟨?_, by decide⟩
  cases key <;> simp [handleGridChange, Nat.mul_comm]

/-! ## C5 -/

/-- C5: for every `totalPlayableFrames > 0` and every starting index in
range, applying the clock's advance step `(prev + 1) % totalPlayableFrames`
exactly `totalPlayableFrames` times returns the index to its starting
value. -/
theorem advanceFrameIndex_cycle (n i : Nat) (hn : 0 < n) (hi : i < n) :
    (advanceFrameIndex n)^[n] i = i := by
  rw [advanceFrameIndex_iterate n n i hi, Nat.add_mod_right]
  exact Nat.mod_eq_of_lt hi

/-- C5 (witness): at `totalPlayableFrames = 4` starting from index 2. -/
theorem advanceFrameIndex_cycle_witness :
    0 < 4 ∧ 2 < 4 ∧ (advanceFrameIndex 4)^[4] 2 = 2 :=
  ⟨by decide, by decide, advanceFrameIndex_cycle 4 2 (by decide) (by decide)⟩

/-! ## C7 -/

/-- C7 (counterexample): the claim says every manual direct set of the
frame index — including the skip-forward control — forces `playing` to
`false`; but the skip-forward handler only advances the index, so from a
playing state it leaves `isPlaying = true`. -/
theorem skipForward_keeps_playing_counterexample :
    ¬ ((skipForwardClick
        { mode := AppMode.MULTI_IMAGE,
          frames := [{ id := "f1", url := "u1", width := 4, height := 4 }],
          spriteConfig := initialSpriteConfig,
          isPlaying := true, currentFrameIndex := 0 }).isPlaying = false) := by
  decide

/-- C7 (amended): scrubbing the timeline forces playback from running to
stopped and sets the index to the scrubbed value, but the skip-forward
control advances the index by one modulo `totalPlayableFrames` without
changing the playing state. -/
theorem scrub_stops_playback_skipForward_does_not (s : AppState) (v : Nat) :
    (timelineScrub v s).isPlaying = false ∧
    (timelineScrub v s).currentFrameIndex = v ∧
    (skipForwardClick s).isPlaying = s.isPlaying ∧
    (skipForwardClick s).currentFrameIndex =
      (s.currentFrameIndex + 1) % totalPlayableFrames s.mode s.frames s.spriteConfig := by
  refine ⟨rfl, rfl, rfl, rfl⟩

/-! ## C8 -/

/-- C8: any switch of the mode re-runs the reset effect, leaving
`currentFrameIndex = 0` and `isPlaying = false`; the same reset fires when
the frame-list length changes or when the atlas source image changes. -/
theorem mode_switch_resets_playback (s : AppState) (m : AppMode)
    (fs : List FrameData) (img : Option FrameData)
    (hm : m ≠ s.mode) (hf : fs.length ≠ s.frames.length)
    (hi : img ≠ s.spriteConfig.originalImage) :
    (setModeOp m s).currentFrameIndex = 0 ∧ (setModeOp m s).isPlaying = false ∧
    (setFramesOp fs s).currentFrameIndex = 0 ∧ (setFramesOp fs s).isPlaying = false ∧
    (setAtlasImageOp img s).currentFrameIndex = 0 ∧
    (setAtlasImageOp img s).isPlaying = false := by
  have h1 : setModeOp m s = applyResetEffect { s with mode := m } := by
    unfold setModeOp commitState
    rw [if_neg]
    intro h
    exact hm (congrArg Prod.fst h)
  have h2 : setFramesOp fs s = applyResetEffect { s with frames := fs } := by
    unfold setFramesOp commitState
    rw [if_neg]
    intro h
    exact hf (congrArg (fun p => p.2.1) h)
  have h3 : setAtlasImageOp img s =
      applyResetEffect { s with spriteConfig := { s.spriteConfig with originalImage := img } } := by
    unfold setAtlasImageOp commitState
    rw [if_neg]
    intro h
    exact hi (congrArg (fun p => p.2.2) h)
  rw [h1, h2, h3]
  exact ⟨rfl, rfl, rfl, rfl, rfl, rfl⟩

/-- C8 (witness): switching from multi-image mode to sprite-sheet mode
while playing at index 3, clearing the frame list, and loading an atlas
image all reset the playback position. -/
theorem mode_switch_resets_playback_witness :
    AppMode.SPRITE_SHEET ≠ (witnessAppState).mode ∧
    (setModeOp AppMode.SPRITE_SHEET witnessAppState).currentFrameIndex = 0 ∧
    (setModeOp AppMode.SPRITE_SHEET witnessAppState).isPlaying = false :=
  ⟨by decide,
    (mode_switch_resets_playback witnessAppState AppMode.SPRITE_SHEET []
      (some { id := "a", url := "ua", width := 8, height := 8 })
      (by decide) (by decide) (by decide)).1,
    (mode_switch_resets_playback witnessAppState AppMode.SPRITE_SHEET []
      (some { id := "a", url := "ua", width := 8, height := 8 })
      (by decide) (by decide) (by decide)).2.1⟩

/-! ## C6 -/

/-- Under the loop invariant, the effect cleanup clears every live
interval: the only live interval (if any) is the one `timerRef` names, and
`clearInterval` removes exactly that one. -/
theorem effectCleanup_liveTimers (s : LoopState) (h : LoopInv s) :
    (effectCleanup s).liveTimers = [] := by
  obtain ⟨hlen, href⟩ := h
  cases htr : s.timerRef with
  | none =>
    have hnil : s.liveTimers = [] := by
      apply List.eq_nil_iff_forall_not_mem.mpr
      intro a ha
      have h2 := href a ha
      rw [htr] at h2
      exact Option.noConfusion h2
    simp [effectCleanup, htr, hnil]
  | some t =>
    simp only [effectCleanup, htr]
    unfold clearIntervalOp
    apply List.filter_eq_nil_iff.mpr
    intro a ha
    have h2 := href a ha
    rw [htr] at h2
    have hid : a.id = t := (Option.some.inj h2).symm
    simp [hid]

/-- The effect cleanup touches only the set of live intervals. -/
theorem effectCleanup_fields (s : LoopState) :
    (effectCleanup s).isPlaying = s.isPlaying ∧
    (effectCleanup s).fps = s.fps ∧
    (effectCleanup s).totalPlayable = s.totalPlayable ∧
    (effectCleanup s).currentFrameIndex = s.currentFrameIndex ∧
    (effectCleanup s).timerRef = s.timerRef ∧
    (effectCleanup s).nextTimerId = s.nextTimerId := by
  rcases htr : s.timerRef with _ | t <;>
    simp [effectCleanup, htr]

/-- One effect re-run (cleanup then body), starting from an invariant
state: afterwards exactly one interval is alive when the loop should run
(`isPlaying` and a positive frame count), at the interval `1000 / fps`, and
none otherwise; the frame index is untouched and the invariant is
preserved. -/
theorem effectRun_spec (s : LoopState) (h : LoopInv s) :
    ((effectRun s).liveTimers =
        if s.isPlaying = true ∧ 0 < s.totalPlayable then
          [{ id := s.nextTimerId, intervalMs := (1000 : ℚ) / (s.fps : ℚ) }]
        else []) ∧
      (effectRun s).currentFrameIndex = s.currentFrameIndex ∧
      (effectRun s).isPlaying = s.isPlaying ∧
      (effectRun s).totalPlayable = s.totalPlayable ∧
      LoopInv (effectRun s) := by
  have hcl := effectCleanup_liveTimers s h
  obtain ⟨hp, hfps, htot, hidx, href, hnext⟩ := effectCleanup_fields s
  unfold effectRun effectBody
  by_cases hc : s.isPlaying = true ∧ 0 < s.totalPlayable
  · rw [if_pos (by rw [hp, htot]; exact hc), if_pos hc]
    refine ⟨by simp [hcl, hnext, hfps], by simp [hidx], by simp [hp],
      by simp [htot], ?_, ?_⟩
    · simp [hcl]
    · intro e he
      simp [hcl] at he
      simp [he]
  · rw [if_neg (by rw [hp, htot]; exact hc), if_neg hc]
    refine ⟨hcl, hidx, hp, htot, ?_, ?_⟩
    · simp [hcl]
    · intro e he
      rw [hcl] at he
      exact absurd he (List.not_mem_nil e)

/-- Every animation-loop event preserves the loop invariant. -/
theorem loopInv_stepEvent (s : LoopState) (h : LoopInv s) (e : ClockEvent) :
    LoopInv (stepEvent e s) := by
  cases e with
  | play => exact (effectRun_spec { s with isPlaying := true } h).2.2.2.2
  | pause => exact (effectRun_spec { s with isPlaying := false } h).2.2.2.2
  | setFps f => exact (effectRun_spec { s with fps := f } h).2.2.2.2
  | setTotal n => exact (effectRun_spec { s with totalPlayable := n } h).2.2.2.2
  | tick id =>
    dsimp only [stepEvent]
    split
    · exact h
    · exact h

/-- The loop invariant holds along every event trace. -/
theorem loopInv_foldl (s : LoopState) (h : LoopInv s) (evs : List ClockEvent) :
    LoopInv (evs.foldl (fun st e => stepEvent e st) s) := by
  induction evs generalizing s with
  | nil => exact h
  | cons e evs ih => exact ih (stepEvent e s) (loopInv_stepEvent s h e)

/-- C6: starting from any state of the animation loop satisfying the loop
invariant, (a) every event — in particular a change of `framesPerSecond`
while playing — first cancels the previously scheduled interval and only
then schedules a new one, so along any event trace at most one recurring
interval is ever alive; (b) changing `framesPerSecond` does not reset
`currentFrameIndex` and does not stop playback, and while playing it leaves
exactly one interval, scheduled at the new period `1000 / f`; (c) the
transitions out of running (pause, playable-frame count dropping to 0)
leave no live interval: the pending tick is cancelled by the single
`clearInterval` of the effect cleanup. -/
theorem fps_change_keeps_single_timer (s : LoopState) (h : LoopInv s) :
    (∀ e : ClockEvent, LoopInv (stepEvent e s) ∧ (stepEvent e s).liveTimers.length ≤ 1) ∧
    (∀ evs : List ClockEvent,
        (evs.foldl (fun st e => stepEvent e st) s).liveTimers.length ≤ 1) ∧
    (∀ f : Nat, (stepEvent (ClockEvent.setFps f) s).currentFrameIndex = s.currentFrameIndex ∧
        (stepEvent (ClockEvent.setFps f) s).isPlaying = s.isPlaying) ∧
    (∀ f : Nat, s.isPlaying = true → 0 < s.totalPlayable →
        (stepEvent (ClockEvent.setFps f) s).liveTimers =
          [{ id := s.nextTimerId, intervalMs := (1000 : ℚ) / (f : ℚ) }]) ∧
    (stepEvent ClockEvent.pause s).liveTimers = [] ∧
    (stepEvent (ClockEvent.setTotal 0) s).liveTimers = [] := by
  refine ⟨fun e => ⟨loopInv_stepEvent s h e, (loopInv_stepEvent s h e).1⟩,
    fun evs => (loopInv_foldl s h evs).1, fun f => ?_, fun f hp ht => ?_, ?_, ?_⟩
  · have hs := effectRun_spec { s with fps := f } h
    exact ⟨hs.2.1, hs.2.2.1⟩
  · have hs := effectRun_spec { s with fps := f } h
    have hlive := hs.1
    rw [if_pos] at hlive
    · exact hlive
    · exact ⟨hp, ht⟩
  · have hs := effectRun_spec { s with isPlaying := false } h
    have hlive := hs.1
    rw [if_neg] at hlive
    · exact hlive
    · intro hcon
      exact Bool.false_ne_true hcon.1
  · have hs := effectRun_spec { s with totalPlayable := 0 } h
    have hlive := hs.1
    rw [if_neg] at hlive
    · exact hlive
    · intro hcon
      exact Nat.lt_irrefl 0 hcon.2

/-- C6 (witness): a state playing at 8 fps with one live interval and 4
playable frames; changing the fps to 25 reschedules a single interval at
40 ms and keeps the frame index, and pausing cancels the interval. -/
theorem fps_change_keeps_single_timer_witness :
    LoopInv witnessLoopState ∧
    (stepEvent (ClockEvent.setFps 25) witnessLoopState).currentFrameIndex =
      witnessLoopState.currentFrameIndex ∧
    (stepEvent (ClockEvent.setFps 25) witnessLoopState).liveTimers =
      [{ id := witnessLoopState.nextTimerId, intervalMs := (1000 : ℚ) / (25 : ℚ) }] ∧
    (stepEvent ClockEvent.pause witnessLoopState).liveTimers = [] :=
  ⟨by decide,
    ((fps_change_keeps_single_timer witnessLoopState (by decide)).2.2.1 25).1,
    (fps_change_keeps_single_timer witnessLoopState (by decide)).2.2.2.1 25
      (by decide) (by decide),
    (fps_change_keeps_single_timer witnessLoopState (by decide)).2.2.2.2.1⟩

/-! ## Export helper lemmas -/

/-- When every decode succeeds, the sequential decode loop returns the
url-keyed decoded image for each frame, in order. -/
theorem loadAll_total (decFn : String → Img) (l : List FrameData) :
    loadAll (fun u => some (decFn u)) l =
      some (l.map fun f => (f.url, decFn f.url)) := by
  induction l with
  | nil => rfl
  | cons f fs ih => simp [loadAll, ih]

/-- A successful decode loop yields one decoded image per frame. -/
theorem loadAll_length (dec : String → Option Img) (l : List FrameData)
    (l' : List (String × Img)) (h : loadAll dec l = some l') :
    l'.length = l.length := by
  induction l generalizing l' with
  | nil =>
    simp only [loadAll] at h
    cases h
    rfl
  | cons f fs ih =>
    simp only [loadAll] at h
    cases hd : dec f.url with
    | none => rw [hd] at h; exact absurd h (by simp)
    | some im =>
      rw [hd] at h
      cases hrest : loadAll dec fs with
      | none => rw [hrest] at h; exact absurd h (by simp)
      | some restImgs =>
        rw [hrest] at h
        simp only [Option.some.injEq] at h
        rw [← h]
        simp [ih restImgs hrest]

/-- `getD` of a mapped list with mapped default. -/
theorem getD_map_comm {α β : Type} (g : α → β) (l : List α) (i : Nat) (d : α) :
    (l.map g).getD i (g d) = g (l.getD i d) := by
  simp only [List.getD_eq_getElem?_getD, List.getElem?_map]
  cases l[i]? <;> simp

/-- Evaluation of `generateGif` when the decode phase yields a non-empty
image list and the encoder finishes: the run succeeds, the worker URL is
revoked exactly once, and the encoder receives one `gifFrame` per index in
`0 .. totalFramesToRender - 1`. -/
theorem generateGif_success (mode : AppMode) (frames : List FrameData)
    (cfg : SpriteSheetConfig) (fps : Nat) (bg : String) (dec : String → Option Img)
    (img0 : String × Img) (restImgs : List (String × Img))
    (hload : loadImages mode frames cfg dec = some (img0 :: restImgs)) :
    generateGif mode frames cfg fps bg dec true =
      (GifOutcome.success
        { width := (exportCanvasSize mode cfg img0).1,
          height := (exportCanvasSize mode cfg img0).2,
          frames := (List.range (totalFramesToRender mode (img0 :: restImgs) cfg)).map
            (gifFrame mode cfg bg fps (img0 :: restImgs) img0
              (exportCanvasSize mode cfg img0).1 (exportCanvasSize mode cfg img0).2) }, 1) := by
  unfold generateGif
  rw [hload]
  rfl

/-! ## C4 -/

/-- C4 (code bug): the transient worker object URL is revoked only inside
the encoder's `finished` handler. On the empty-input path the run throws
`"No images to process"` with zero revocations; on a decode failure it
throws with zero revocations; when the encoder never finishes, zero
revocations; only the success path revokes it (once). The claim that every
failure path also releases the URL exactly once is therefore violated by
the code. -/
theorem worker_url_release_counts :
    (generateGif AppMode.SPRITE_SHEET [] initialSpriteConfig 8 "#2d3748"
        (fun _ => none) true).2 = 0 ∧
    (generateGif AppMode.SPRITE_SHEET [] initialSpriteConfig 8 "#2d3748"
        (fun _ => none) true).1 = GifOutcome.thrown "No images to process" ∧
    (generateGif AppMode.MULTI_IMAGE [{ id := "f0", url := "u0", width := 10, height := 10 }]
        initialSpriteConfig 8 "#2d3748" (fun _ => none) true).2 = 0 ∧
    (generateGif AppMode.MULTI_IMAGE [{ id := "f0", url := "u0", width := 10, height := 10 }]
        initialSpriteConfig 8 "#2d3748" (fun _ => none) true).1 =
      GifOutcome.thrown "decode failure" ∧
    (generateGif AppMode.MULTI_IMAGE [{ id := "f0", url := "u0", width := 10, height := 10 }]
        initialSpriteConfig 8 "#2d3748"
        (fun _ => some { naturalWidth := 10, naturalHeight := 10 }) false).2 = 0 ∧
    (generateGif AppMode.MULTI_IMAGE [{ id := "f0", url := "u0", width := 10, height := 10 }]
        initialSpriteConfig 8 "#2d3748"
        (fun _ => some { naturalWidth := 10, naturalHeight := 10 }) true).2 = 1 := by
  decide

/-! ## C10 -/

/-- Every sprite configuration reachable through the UI's edits keeps
`rows ≥ 1`, `cols ≥ 1` and `totalFrames ≥ 1`. -/
theorem reachableConfig_bounds {c : SpriteSheetConfig} (h : ReachableConfig c) :
    1 ≤ c.rows ∧ 1 ≤ c.cols ∧ 1 ≤ c.totalFrames := by
  induction h with
  | init => exact ⟨Nat.le_refl 1, Nat.le_refl 1, Nat.le_refl 1⟩
  | step hc hs ih =>
    rename_i c c'
    cases hs with
    | upload img => exact ⟨Nat.le_refl 1, Nat.le_refl 1, Nat.le_refl 1⟩
    | grid key value =>
      obtain ⟨hrw, hcl, _⟩ := ih
      have hval : 1 ≤ (max 1 value).toNat := by
        have h1 : ((1 : Int)) ≤ max 1 value := le_max_left 1 value
        calc 1 = ((1 : Int)).toNat := rfl
        _ ≤ (max 1 value).toNat := Int.toNat_le_toNat h1
      cases key with
      | rows =>
        refine ⟨by simpa [handleGridChange] using hval, by simpa [handleGridChange] using hcl, ?_⟩
        have : 1 * 1 ≤ (max 1 value).toNat * c.cols := Nat.mul_le_mul hval hcl
        simpa [handleGridChange] using this
      | cols =>
        refine ⟨by simpa [handleGridChange] using hrw, by simpa [handleGridChange] using hval, ?_⟩
        have : 1 * 1 ≤ (max 1 value).toNat * c.rows := Nat.mul_le_mul hval hrw
        simpa [handleGridChange] using this
    | slider v cmid h1 h2 =>
      exact ⟨ih.1, ih.2.1, h1⟩

/-- C10: in sprite-sheet mode with no atlas image loaded, the playable
frame count equals `spriteConfig.totalFrames`, which every reachable
configuration keeps at ≥ 1 (the initial configuration has `totalFrames =
1`), so the zero-playable-frames guard of `handleExportGif` does not fire;
the renderer falls back to a 300×300 surface and performs no draw beyond
the clear; and invoking the export throws `"No images to process"` instead
of being a no-op. -/
theorem atlas_without_image_behavior (c : SpriteSheetConfig) (frames : List FrameData)
    (idx fps : Nat) (bg : String) (imageObj : Option Img) (dec : String → Option Img)
    (encoderOk : Bool) (hr : ReachableConfig c) (hn : c.originalImage = none) :
    totalPlayableFrames AppMode.SPRITE_SHEET frames c = c.totalFrames ∧
    1 ≤ c.totalFrames ∧
    totalPlayableFrames AppMode.SPRITE_SHEET frames c ≠ 0 ∧
    canvasPlayerBaseDims AppMode.SPRITE_SHEET frames c idx = (300, 300, false) ∧
    canvasPlayerDraw AppMode.SPRITE_SHEET frames c idx imageObj =
      [CanvasOp.clearRect 0 0 300 300] ∧
    (generateGif AppMode.SPRITE_SHEET frames c fps bg dec encoderOk).1 =
      GifOutcome.thrown "No images to process" ∧
    (generateGif AppMode.SPRITE_SHEET frames c fps bg dec encoderOk).2 = 0 := by
  have hb := (reachableConfig_bounds hr).2.2
  refine ⟨rfl, hb, ?_, ?_, ?_, ?_, ?_⟩
  · show c.totalFrames ≠ 0
    omega
  · simp [canvasPlayerBaseDims, hn]
  · cases imageObj <;> simp [canvasPlayerDraw, canvasPlayerBaseDims, hn]
  · simp [generateGif, loadImages, hn]
  · simp [generateGif, loadImages, hn]

/-- C10 (witness): the initial configuration (no atlas image,
`totalFrames = 1`). -/
theorem atlas_without_image_behavior_witness :
    initialSpriteConfig.originalImage = none ∧
    totalPlayableFrames AppMode.SPRITE_SHEET [] initialSpriteConfig ≠ 0 ∧
    canvasPlayerBaseDims AppMode.SPRITE_SHEET [] initialSpriteConfig 0 = (300, 300, false) ∧
    (generateGif AppMode.SPRITE_SHEET [] initialSpriteConfig 8 "#2d3748"
        (fun _ => none) true).1 = GifOutcome.thrown "No images to process" :=
  ⟨rfl,
    (atlas_without_image_behavior initialSpriteConfig [] 0 8 "#2d3748" none
      (fun _ => none) true ReachableConfig.init rfl).2.2.1,
    (atlas_without_image_behavior initialSpriteConfig [] 0 8 "#2d3748" none
      (fun _ => none) true ReachableConfig.init rfl).2.2.2.1,
    (atlas_without_image_behavior initialSpriteConfig [] 0 8 "#2d3748" none
      (fun _ => none) true ReachableConfig.init rfl).2.2.2.2.2.1⟩

/-! ## C2 -/

/-- C2: for any grid-atlas configuration with `rows ≥ 1`, `cols ≥ 1` and a
loaded atlas image, both the interactive renderer and the exporter resolve
cell `i` to the rectangle with `frameWidth = floor(atlasWidth / cols)`,
`frameHeight = floor(atlasHeight / rows)`, `sourceX = (i mod cols) *
frameWidth`, `sourceY = floor(i / cols) * frameHeight`: the renderer's draw
and the `i`-th exported frame use exactly this geometry. -/
theorem grid_geometry_renderer_exporter_agree (cfg : SpriteSheetConfig)
    (oi : FrameData) (im imObj : Img) (frames : List FrameData) (fps : Nat)
    (bg : String) (dec : String → Option Img) (i : Nat)
    (hoi : cfg.originalImage = some oi) (hdec : dec oi.url = some im)
    (hrows : 1 ≤ cfg.rows) (hcols : 1 ≤ cfg.cols) (hi : i < cfg.totalFrames) :
    canvasPlayerDraw AppMode.SPRITE_SHEET frames cfg i (some imObj) =
      [CanvasOp.clearRect 0 0 (oi.width / cfg.cols) (oi.height / cfg.rows),
       CanvasOp.drawImageRect oi.url
         ((i % cfg.cols) * (oi.width / cfg.cols)) ((i / cfg.cols) * (oi.height / cfg.rows))
         (oi.width / cfg.cols) (oi.height / cfg.rows)
         0 0 (oi.width / cfg.cols) (oi.height / cfg.rows)] ∧
    (exportFrameOuts (generateGif AppMode.SPRITE_SHEET frames cfg fps bg dec true).1).get? i =
      some { steps := [CanvasOp.fillRect bg 0 0 (oi.width / cfg.cols) (oi.height / cfg.rows),
               CanvasOp.drawImageRect oi.url
                 ((i % cfg.cols) * (oi.width / cfg.cols))
                 ((i / cfg.cols) * (oi.height / cfg.rows))
                 (oi.width / cfg.cols) (oi.height / cfg.rows)
                 0 0 (oi.width / cfg.cols) (oi.height / cfg.rows)],
             delay := (1000 : ℚ) / (fps : ℚ) } := by
  constructor
  · simp [canvasPlayerDraw, canvasPlayerBaseDims, hoi]
  · have hload : loadImages AppMode.SPRITE_SHEET frames cfg dec = some [(oi.url, im)] := by
      simp [loadImages, hoi, hdec]
    rw [generateGif_success AppMode.SPRITE_SHEET frames cfg fps bg dec (oi.url, im) [] hload]
    simp only [exportFrameOuts, totalFramesToRender]
    rw [List.get?_map, List.get?_range hi]
    simp [gifFrame, exportCanvasSize, hoi]

/-- C2 (witness): a 64×48 atlas cut 2×2, cell 3 (`sx = 32`, `sy = 24`,
cell 32×24), at 8 fps. -/
theorem grid_geometry_renderer_exporter_agree_witness :
    witnessAtlasConfig.originalImage =
      some { id := "s", url := "us", width := 64, height := 48 } ∧
    canvasPlayerDraw AppMode.SPRITE_SHEET [] witnessAtlasConfig 3
        (some { naturalWidth := 64, naturalHeight := 48 }) =
      [CanvasOp.clearRect 0 0 32 24,
       CanvasOp.drawImageRect "us" 32 24 32 24 0 0 32 24] ∧
    (exportFrameOuts (generateGif AppMode.SPRITE_SHEET [] witnessAtlasConfig 8 "#2d3748"
        (fun _ => some { naturalWidth := 64, naturalHeight := 48 }) true).1).get? 3 =
      some { steps := [CanvasOp.fillRect "#2d3748" 0 0 32 24,
               CanvasOp.drawImageRect "us" 32 24 32 24 0 0 32 24],
             delay := (1000 : ℚ) / ((8 : Nat) : ℚ) } := by
  have h := grid_geometry_renderer_exporter_agree witnessAtlasConfig
    { id := "s", url := "us", width := 64, height := 48 }
    { naturalWidth := 64, naturalHeight := 48 } { naturalWidth := 64, naturalHeight := 48 }
    [] 8 "#2d3748" (fun _ => some { naturalWidth := 64, naturalHeight := 48 }) 3
    rfl rfl (by decide) (by decide) (by decide)
  exact ⟨rfl, h.1, h.2⟩

/-! ## C3 -/

/-- C3 (counterexample): at `fps = 3` the delay handed to `addFrame` is the
exact quotient `1000 / 3`, while the claim requires `round(1000 / fps) =
333`; the two differ. -/
theorem export_delay_unrounded_counterexample :
    (exportFrameOuts (generateGif AppMode.MULTI_IMAGE
          [{ id := "f0", url := "u0", width := 10, height := 10 }] initialSpriteConfig 3
          "#2d3748" (fun _ => some { naturalWidth := 10, naturalHeight := 10 }) true).1).map
        FrameOut.delay = [(1000 : ℚ) / 3] ∧
      round ((1000 : ℚ) / 3) = (333 : ℤ) ∧
      ((1000 : ℚ) / 3) ≠ ((333 : ℤ) : ℚ) := by
  refine ⟨by rfl, ?_, by norm_num⟩
  norm_num [round_eq]

/-- C3 (amended): whenever the decode phase succeeds with a non-empty image
list, the exporter hands the encoder exactly `totalPlayableFrames` frames
(the frame-list length in multi-image mode, `spriteConfig.totalFrames` in
sprite mode), the `i`-th `addFrame` call carrying the composite of frame
index `i` (increasing order), each with delay exactly `1000 / fps`
milliseconds — the exact rational quotient, not `round(1000 / fps)`. -/
theorem export_addFrame_calls (mode : AppMode) (frames : List FrameData)
    (cfg : SpriteSheetConfig) (fps : Nat) (bg : String) (dec : String → Option Img)
    (img0 : String × Img) (restImgs : List (String × Img))
    (hload : loadImages mode frames cfg dec = some (img0 :: restImgs)) :
    (exportFrameOuts (generateGif mode frames cfg fps bg dec true).1).length =
      totalPlayableFrames mode frames cfg ∧
    (∀ fo ∈ exportFrameOuts (generateGif mode frames cfg fps bg dec true).1,
        fo.delay = (1000 : ℚ) / (fps : ℚ)) ∧
    (∀ i, i < totalPlayableFrames mode frames cfg →
        (exportFrameOuts (generateGif mode frames cfg fps bg dec true).1).get? i =
          some (gifFrame mode cfg bg fps (img0 :: restImgs) img0
            (exportCanvasSize mode cfg img0).1 (exportCanvasSize mode cfg img0).2 i)) := by
  have htot : totalFramesToRender mode (img0 :: restImgs) cfg =
      totalPlayableFrames mode frames cfg := by
    cases mode with
    | MULTI_IMAGE =>
      have hlen := loadAll_length dec frames (img0 :: restImgs)
        (by simpa [loadImages] using hload)
      simpa [totalFramesToRender, totalPlayableFrames] using hlen
    | SPRITE_SHEET => rfl
  rw [generateGif_success mode frames cfg fps bg dec img0 restImgs hload]
  simp only [exportFrameOuts]
  refine ⟨by simp [htot], ?_, ?_⟩
  · intro fo hfo
    simp only [List.mem_map, List.mem_range] at hfo
    obtain ⟨i, _, rfl⟩ := hfo
    rfl
  · intro i hi
    rw [List.get?_map, List.get?_range (by rw [htot]; exact hi)]
    rfl

/-- C3 (amended, witness): a single 10×10 frame at 8 fps: one `addFrame`
call with delay exactly 125 ms. -/
theorem export_addFrame_calls_witness :
    loadImages AppMode.MULTI_IMAGE [{ id := "f0", url := "u0", width := 10, height := 10 }]
        initialSpriteConfig (fun _ => some { naturalWidth := 10, naturalHeight := 10 }) =
      some [("u0", { naturalWidth := 10, naturalHeight := 10 })] ∧
    (exportFrameOuts (generateGif AppMode.MULTI_IMAGE
        [{ id := "f0", url := "u0", width := 10, height := 10 }] initialSpriteConfig 8
        "#2d3748" (fun _ => some { naturalWidth := 10, naturalHeight := 10 }) true).1).length =
      totalPlayableFrames AppMode.MULTI_IMAGE
        [{ id := "f0", url := "u0", width := 10, height := 10 }] initialSpriteConfig ∧
    (∀ fo ∈ exportFrameOuts (generateGif AppMode.MULTI_IMAGE
        [{ id := "f0", url := "u0", width := 10, height := 10 }] initialSpriteConfig 8
        "#2d3748" (fun _ => some { naturalWidth := 10, naturalHeight := 10 }) true).1,
      fo.delay = (1000 : ℚ) / ((8 : Nat) : ℚ)) :=
  ⟨rfl,
    (export_addFrame_calls AppMode.MULTI_IMAGE
      [{ id := "f0", url := "u0", width := 10, height := 10 }] initialSpriteConfig 8
      "#2d3748" (fun _ => some { naturalWidth := 10, naturalHeight := 10 })
      ("u0", { naturalWidth := 10, naturalHeight := 10 }) [] rfl).1,
    (export_addFrame_calls AppMode.MULTI_IMAGE
      [{ id := "f0", url := "u0", width := 10, height := 10 }] initialSpriteConfig 8
      "#2d3748" (fun _ => some { naturalWidth := 10, naturalHeight := 10 })
      ("u0", { naturalWidth := 10, naturalHeight := 10 }) [] rfl).2.1⟩

/-! ## C9 -/

/-- C9: exporting a non-empty ordered sequence uses the first frame's
native (decoded) dimensions as the export canvas, and the `i`-th exported
frame first fills the whole canvas with the background color and then
draws frame `i`'s image at the centring offset
`((canvasW - imgW) / 2, (canvasH - imgH) / 2)` — drawn at its native size,
not stretched. -/
theorem export_multi_centered (f0 : FrameData) (rest : List FrameData)
    (cfg : SpriteSheetConfig) (fps : Nat) (bg : String) (decFn : String → Img)
    (i : Nat) (hi : i < (f0 :: rest).length) :
    exportSize (generateGif AppMode.MULTI_IMAGE (f0 :: rest) cfg fps bg
        (fun u => some (decFn u)) true).1 =
      some ((decFn f0.url).naturalWidth, (decFn f0.url).naturalHeight) ∧
    (exportFrameOuts (generateGif AppMode.MULTI_IMAGE (f0 :: rest) cfg fps bg
        (fun u => some (decFn u)) true).1).length = (f0 :: rest).length ∧
    (exportFrameOuts (generateGif AppMode.MULTI_IMAGE (f0 :: rest) cfg fps bg
        (fun u => some (decFn u)) true).1).get? i =
      some { steps :=
               [CanvasOp.fillRect bg 0 0 (decFn f0.url).naturalWidth
                  (decFn f0.url).naturalHeight,
                CanvasOp.drawImageAt ((f0 :: rest).getD i f0).url
                  ((((decFn f0.url).naturalWidth : ℚ) -
                      ((decFn ((f0 :: rest).getD i f0).url).naturalWidth : ℚ)) / 2)
                  ((((decFn f0.url).naturalHeight : ℚ) -
                      ((decFn ((f0 :: rest).getD i f0).url).naturalHeight : ℚ)) / 2)],
             delay := (1000 : ℚ) / (fps : ℚ) } := by
  have hload : loadImages AppMode.MULTI_IMAGE (f0 :: rest) cfg (fun u => some (decFn u)) =
      some ((f0.url, decFn f0.url) :: rest.map fun f => (f.url, decFn f.url)) := by
    simpa [loadImages] using loadAll_total decFn (f0 :: rest)
  rw [generateGif_success AppMode.MULTI_IMAGE (f0 :: rest) cfg fps bg
    (fun u => some (decFn u)) (f0.url, decFn f0.url)
    (rest.map fun f => (f.url, decFn f.url)) hload]
  have hlen : ((f0.url, decFn f0.url) :: rest.map fun f => (f.url, decFn f.url)).length =
      (f0 :: rest).length := by
    simp
  refine ⟨rfl, ?_, ?_⟩
  · simp [exportFrameOuts, totalFramesToRender]
  · simp only [exportFrameOuts]
    have hlt : i < totalFramesToRender AppMode.MULTI_IMAGE
        ((f0.url, decFn f0.url) :: rest.map fun f => (f.url, decFn f.url)) cfg := by
      simpa [totalFramesToRender] using hi
    rw [List.get?_map, List.get?_range hlt]
    have hgd := getD_map_comm (fun f => (f.url, decFn f.url)) (f0 :: rest) i f0
    simp only [List.map_cons, List.getD_eq_getElem?_getD] at hgd
    simp [gifFrame, exportCanvasSize, hgd]

/-- C9 (witness): three frames of sizes 100×80, 40×30, 60×50: the export
canvas is 100×80 (the first frame's size), and frame 1 (40×30) is drawn at
the centring offset (30, 25) over the background fill. -/
theorem export_multi_centered_witness :
    1 < seqFrames.length ∧
    exportSize (generateGif AppMode.MULTI_IMAGE seqFrames initialSpriteConfig 8 "#2d3748"
        (fun u => some (seqDecode u)) true).1 = some (100, 80) ∧
    (exportFrameOuts (generateGif AppMode.MULTI_IMAGE seqFrames initialSpriteConfig 8
        "#2d3748" (fun u => some (seqDecode u)) true).1).get? 1 =
      some { steps := [CanvasOp.fillRect "#2d3748" 0 0 100 80,
               CanvasOp.drawImageAt "u1" 30 25],
             delay := (1000 : ℚ) / ((8 : Nat) : ℚ) } := by
  have h := export_multi_centered { id := "f0", url := "u0", width := 100, height := 80 }
    [{ id := "f1", url := "u1", width := 40, height := 30 },
     { id := "f2", url := "u2", width := 60, height := 50 }]
    initialSpriteConfig 8 "#2d3748" seqDecode 1 (by decide)
  refine ⟨by decide, ?_, ?_⟩
  · simp only [seqFrames]
    rw [h.1]
    rfl
  · simp only [seqFrames]
    rw [h.2.2]
    simp only [seqDecode, List.getD_cons_succ, List.getD_cons_zero, String.reduceEq,
      if_false, if_true, reduceIte]
    norm_num

end GifHecheng
